import Mathlib

/-!
Verification of the A2A protocol dispatcher (`A2A-LangGraph/shared/server.py`).

The development shallowly embeds `A2AServer._process_request`,
`A2AServer._handle_exception`, `A2AServer._create_response` and the route table
built in `A2AServer.__init__`, together with the pieces of the typed data model
(`shared/custom_types.py`, which is referenced by the server but whose file is
not part of the sources; those definitions are modelled from the spec and the
repository's tests and marked as such).

Python-semantics notes that drive the embedding:
* `await request.json()` either yields a parsed JSON value or raises
  `json.decoder.JSONDecodeError`; we model the incoming body as
  `Except PyExn Json`.
* Inside `_process_request` the statements
  `from shared.custom_types import A2AMessageSendRequest, ...` (line 101) and
  `from shared.custom_types import InvalidRequestError, JSONRPCResponse`
  (line 137) are function-local imports.  By Python scoping rules every name
  assigned anywhere in a function body is a local of that function, so
  `A2AMessageSendRequest`, `InvalidRequestError` and `JSONRPCResponse` are
  locals of `_process_request`, shadowing the module-level imports.  On any
  code path where the corresponding import statement did not execute, reading
  such a name raises `UnboundLocalError`.  Concretely:
  - for a request whose method is not `message/send`, line 161
    `isinstance(json_rpc_request, A2AMessageSendRequest)` raises
    `UnboundLocalError` (line 101 never ran on that path);
  - in the handler for `A2ARequest.validate_python` failures (lines 151-157),
    `JSONRPCResponse` / `InvalidRequestError` raise `UnboundLocalError`
    (line 137 never ran on that path).
  Both exceptions propagate to the outer `except` and become Internal-Error
  responses.  (Line 165 additionally references `A2AMessageStreamRequest`,
  a name that is defined nowhere in the repository, but line 161 already
  raises before it is reached.)
-/

namespace A2AProto

/-- A parsed JSON value, the result of `json` decoding a request body.
Numbers are restricted to integers: every number the dispatcher or the claims
touch (ids, error codes) is integral, and no arithmetic is performed on them. -/
inductive Json where
  | null
  | bool (b : Bool)
  | num (n : Int)
  | str (s : String)
  | arr (elems : List Json)
  | obj (fields : List (String × Json))

/-- Python exceptions that can arise inside `_process_request`.  The payload
strings model `str(e)`; no claim depends on their exact text. -/
inductive PyExn where
  | jsonDecodeError
  | validationError (detail : String)
  | attributeError (detail : String)
  | typeError (detail : String)
  | unboundLocalError (name : String)
  | valueError (detail : String)
deriving Repr, DecidableEq

/-- Dictionary lookup, `d[k]` as used by `d.get(k)`: the value when the key is
present, `none` otherwise.  (A JSON `null` value decodes to Python `None`, so a
body whose `id` is explicitly `null` behaves like an absent `id` downstream;
the concrete inputs in this file use non-null values, where the two agree.) -/
def dictGet (fields : List (String × Json)) (key : String) : Option Json :=
  (fields.find? (fun kv => kv.1 == key)).map (·.2)

/-- Python `d.get(k, default)`. -/
def dictGetD (fields : List (String × Json)) (key : String) (dflt : Json) : Json :=
  (dictGet fields key).getD dflt

/-- Calling `.get`/`.keys` on a non-dict raises `AttributeError`. -/
def asDict : Json → Except PyExn (List (String × Json))
  | .obj fields => .ok fields
  | _ => .error (.attributeError "object has no get or keys")

/-- Iterating a value that should be a JSON array.  Python would iterate a
string or dict as well, but every element then lacks `.get` and raises
`AttributeError` on the first loop iteration; all exceptions on this path are
caught by the same handler and mapped to the same Invalid-Request response, so
collapsing them to one raised exception is observationally equivalent there. -/
def asArr : Json → Except PyExn (List Json)
  | .arr elems => .ok elems
  | _ => .error (.typeError "object is not iterable")

/-- Modelled from the spec: pydantic validation of a `str`-typed field of the
models in `shared/custom_types.py` (file not under the sources).  Pydantic v2
rejects non-string input for `str` fields with a `ValidationError`. -/
def asStr : Json → Except PyExn String
  | .str s => .ok s
  | _ => .error (.validationError "input should be a valid string")

/-- Modelled from the spec: the fixed JSON-RPC error table of
`shared/custom_types.py` (file not under the sources); spec section 7 fixes the
taxonomy and prescribes the standard negative JSON-RPC codes. -/
inductive JSONRPCError where
  | jsonParseError
  | invalidRequestError (data : Option String)
  | methodNotFoundError
  | invalidParamsError
  | internalError
deriving Repr, DecidableEq

/-- Numeric code of each error, per the JSON-RPC 2.0 convention named by the
spec. -/
def JSONRPCError.code : JSONRPCError → Int
  | .jsonParseError => -32700
  | .invalidRequestError _ => -32600
  | .methodNotFoundError => -32601
  | .invalidParamsError => -32602
  | .internalError => -32603

/-- Canonical message of each error. -/
def JSONRPCError.text : JSONRPCError → String
  | .jsonParseError => "Invalid JSON payload"
  | .invalidRequestError _ => "Request payload validation error"
  | .methodNotFoundError => "Method not found"
  | .invalidParamsError => "Invalid parameters"
  | .internalError => "Internal error"

/-- Modelled from the spec: the `JSONRPCResponse` pydantic model of
`shared/custom_types.py` (`jsonrpc:"2.0"`, `id`, `result` or `error`). -/
structure JSONRPCResponse where
  jsonrpc : String := "2.0"
  id : Option Json := none
  result : Option Json := none
  error : Option JSONRPCError := none

/-- Rendering of `str(e)` for an exception, used as the `data` payload of
Invalid-Request responses.  No claim depends on the exact text. -/
def pyExnStr : PyExn → String
  | .jsonDecodeError => "Expecting value"
  | .validationError d => d
  | .attributeError d => d
  | .typeError d => d
  | .unboundLocalError n => "local variable referenced before assignment: " ++ n
  | .valueError d => d

/-- Modelled from the spec: the `A2ATextPart` pydantic model of
`shared/custom_types.py` (file not under the sources); fields as constructed at
server.py lines 108-112. -/
structure A2ATextPart where
  kind : String
  text : String
  mimeType : String
deriving Repr, DecidableEq

/-- Modelled from the spec: the `A2AMessage` pydantic model of
`shared/custom_types.py`.  Per spec section 6 the wire shape is
`message: role, parts, messageId, taskId?, contextId?`; `taskId` and
`contextId` are optional (the server constructs the model without them, and
`tests/conftest.py` constructs it without `role`), `messageId` is required
(`tests/test_a2a_protocol.py::test_a2a_message_missing_required_fields`). -/
structure A2AMessage where
  role : String
  parts : List A2ATextPart
  messageId : String
  kind : String
  taskId : Option String := none
  contextId : Option String := none
deriving Repr, DecidableEq

/-- Modelled from the spec: `MessageSendParams` of `shared/custom_types.py`. -/
structure MessageSendParams where
  message : A2AMessage

/-- Modelled from the spec: `A2AMessageSendRequest` of
`shared/custom_types.py`; the server constructs it from `id` and `params`
(server.py lines 126-129). -/
structure A2AMessageSendRequest where
  id : Json
  params : MessageSendParams

/-- The seven legacy JSON-RPC methods (spec section 6). -/
inductive LegacyMethod where
  | tasksGet
  | tasksSend
  | tasksSendSubscribe
  | tasksCancel
  | tasksPushNotificationSet
  | tasksPushNotificationGet
  | tasksResubscribe
deriving Repr, DecidableEq

/-- Method string of each legacy request kind (spec section 6). -/
def LegacyMethod.wire : LegacyMethod → String
  | .tasksGet => "tasks/get"
  | .tasksSend => "tasks/send"
  | .tasksSendSubscribe => "tasks/sendSubscribe"
  | .tasksCancel => "tasks/cancel"
  | .tasksPushNotificationSet => "tasks/pushNotification/set"
  | .tasksPushNotificationGet => "tasks/pushNotification/get"
  | .tasksResubscribe => "tasks/resubscribe"

/-- Modelled from the spec: a value of the `A2ARequest` discriminated union of
`shared/custom_types.py` (`GetTaskRequest`, `SendTaskRequest`,
`SendTaskStreamingRequest`, `CancelTaskRequest`,
`SetTaskPushNotificationRequest`, `GetTaskPushNotificationRequest`,
`TaskResubscriptionRequest`), collapsed to its discriminant plus envelope. -/
structure LegacyRequest where
  method : LegacyMethod
  id : Option Json
  params : List (String × Json)

/-- Parses a method string into a legacy request kind. -/
def legacyMethodOf (s : String) : Option LegacyMethod :=
  if s = "tasks/get" then some .tasksGet
  else if s = "tasks/send" then some .tasksSend
  else if s = "tasks/sendSubscribe" then some .tasksSendSubscribe
  else if s = "tasks/cancel" then some .tasksCancel
  else if s = "tasks/pushNotification/set" then some .tasksPushNotificationSet
  else if s = "tasks/pushNotification/get" then some .tasksPushNotificationGet
  else if s = "tasks/resubscribe" then some .tasksResubscribe
  else none

/-- Modelled from the spec: `A2ARequest.validate_python` of
`shared/custom_types.py` (file not under the sources).  Spec section 4.4 step 3:
the body is validated against the full closed set of legacy request shapes,
discriminated by `method`; an unrecognized method or a shape mismatch (body not
an object, `params` missing or not an object) raises a pydantic
`ValidationError`. -/
def validate_python (body : Json) : Except PyExn LegacyRequest :=
  match body with
  | .obj fields =>
    match dictGet fields "method" with
    | some (.str m) =>
      match legacyMethodOf m with
      | some lm =>
        match dictGet fields "params" with
        | some (.obj ps) => .ok { method := lm, id := dictGet fields "id", params := ps }
        | _ => .error (.validationError "params: input should be a valid dictionary")
      | none => .error (.validationError ("method: no union variant matches " ++ m))
    | _ => .error (.validationError "method: field required")
  | _ => .error (.validationError "input should be a valid dictionary")

/-- A handler's return value as `_create_response` (server.py lines 213-227)
discriminates it: a single `JSONRPCResponse`, an `AsyncIterable` of response
objects (collected here as the finite list of items it produces), or any other
Python value. -/
inductive HandlerResult where
  | response (r : JSONRPCResponse)
  | stream (items : List JSONRPCResponse)
  | other (description : String)

/-- Modelled from the spec: the Task Manager handler interface of
`shared/abc_task_manager.py` (file not under the sources); each handler returns
a single response object or an async sequence of them, or raises (spec
section 4.4 step 4). -/
structure TaskManager where
  on_get_task : LegacyRequest → Except PyExn HandlerResult
  on_send_task : LegacyRequest → Except PyExn HandlerResult
  on_send_task_subscribe : LegacyRequest → Except PyExn HandlerResult
  on_cancel_task : LegacyRequest → Except PyExn HandlerResult
  on_set_task_push_notification : LegacyRequest → Except PyExn HandlerResult
  on_get_task_push_notification : LegacyRequest → Except PyExn HandlerResult
  on_resubscribe_to_task : LegacyRequest → Except PyExn HandlerResult
  on_a2a_message_send : A2AMessageSendRequest → Except PyExn HandlerResult

/-- Python `part_data.get('kind') == 'text'`: true exactly when the looked-up
value is the string `"text"` (false for an absent key, i.e. `None`, and for any
non-string value). -/
def isTextKind : Option Json → Bool
  | some (.str s) => s == "text"
  | _ => false

/-- The part-collection loop of the manual `message/send` extraction
(server.py lines 105-112):

```
parts = []
for part_data in message_data.get('parts', []):
    if part_data.get('kind') == 'text':
        parts.append(A2ATextPart(kind='text',
            text=part_data.get('text', ''),
            mimeType=part_data.get('mimeType', 'text/plain')))
```

A part whose `kind` is anything other than the string `"text"` (including an
absent `kind`) is skipped without error; a part that is not a dict raises
`AttributeError` at `part_data.get`; a kept part whose `text` or `mimeType`
value is present but not a string raises a pydantic `ValidationError` at the
`A2ATextPart` constructor. -/
def extract_parts : List Json → Except PyExn (List A2ATextPart)
  | [] => .ok []
  | partJson :: rest => do
    let partFields ← asDict partJson
    if isTextKind (dictGet partFields "kind") then
      let text ← asStr (dictGetD partFields "text" (.str ""))
      let mime ← asStr (dictGetD partFields "mimeType" (.str "text/plain"))
      let tail ← extract_parts rest
      .ok ({ kind := "text", text := text, mimeType := mime } :: tail)
    else
      extract_parts rest

/-- The manual construction of an `A2AMessageSendRequest` for a `message/send`
body (server.py lines 100-129).  `fields` is the already-parsed body dict.

* line 104: `message_data = body.get('params', {}).get('message', {})` —
  a present-but-non-dict `params` or `message` raises `AttributeError`;
* lines 105-112: the part loop (`extract_parts`);
* lines 114-120: `A2AMessage(role=message_data.get('role', 'user'),
  parts=parts, messageId=message_data.get('messageId', 'auto'),
  kind='message')` — note that `taskId` and `contextId` are never read from
  `message_data` and are left at their defaults;
* line 123 and lines 126-129: `MessageSendParams(message=...)` and
  `A2AMessageSendRequest(id=body.get('id', 'auto'), params=...)`. -/
def extract_message_send (fields : List (String × Json)) :
    Except PyExn A2AMessageSendRequest := do
  let paramsFields ← asDict (dictGetD fields "params" (.obj []))
  let messageFields ← asDict (dictGetD paramsFields "message" (.obj []))
  let partList ← asArr (dictGetD messageFields "parts" (.arr []))
  let parts ← extract_parts partList
  let role ← asStr (dictGetD messageFields "role" (.str "user"))
  let messageId ← asStr (dictGetD messageFields "messageId" (.str "auto"))
  let a2aMessage : A2AMessage :=
    { role := role, parts := parts, messageId := messageId, kind := "message" }
  .ok { id := dictGetD fields "id" (.str "auto"), params := { message := a2aMessage } }

/-- A server-sent event: one `data:` frame. -/
structure SSEFrame where
  data : String
deriving Repr, DecidableEq

/-- What `_process_request` hands back to the HTTP layer: a `JSONResponse`
(which receives `body.model_dump(exclude_none=True)` plus a status code) or an
`EventSourceResponse` over the frames the generator produces. -/
inductive ServerResponse where
  | json (body : JSONRPCResponse) (statusCode : Nat)
  | sse (frames : List SSEFrame)

/-- String escaping of the JSON renderer (quote and backslash). -/
def escapeChar (c : Char) : String :=
  if c = '\"' then "\\\"" else if c = '\\' then "\\\\" else String.singleton c

/-- JSON string literal rendering. -/
def renderString (s : String) : String :=
  "\"" ++ String.join (s.toList.map escapeChar) ++ "\""

mutual

/-- Renders a JSON value to its wire text, as `model_dump_json` does after the
dump; claims only compare these strings for equality. -/
def renderJson : Json → String
  | .null => "null"
  | .bool true => "true"
  | .bool false => "false"
  | .num n => toString n
  | .str s => renderString s
  | .arr elems => "[" ++ renderArr elems ++ "]"
  | .obj fields => "\x7b" ++ renderObj fields ++ "\x7d"

/-- Renders array elements, comma separated. -/
def renderArr : List Json → String
  | [] => ""
  | [j] => renderJson j
  | j :: rest => renderJson j ++ "," ++ renderArr rest

/-- Renders object members, comma separated. -/
def renderObj : List (String × Json) → String
  | [] => ""
  | [(k, v)] => renderString k ++ ":" ++ renderJson v
  | (k, v) :: rest => renderString k ++ ":" ++ renderJson v ++ "," ++ renderObj rest

end

/-- `model_dump(exclude_none=True)` of an error object: `code` and `message`
always, `data` only when set. -/
def dumpError (e : JSONRPCError) : Json :=
  .obj ([("code", .num e.code), ("message", .str e.text)] ++
    match e with
    | .invalidRequestError (some d) => [("data", .str d)]
    | _ => [])

/-- `model_dump(exclude_none=True)` of a `JSONRPCResponse`: the `jsonrpc`
field always, and each of `id`, `result`, `error` only when it is not `None`. -/
def dumpResponse (r : JSONRPCResponse) : Json :=
  .obj ([("jsonrpc", .str r.jsonrpc)] ++
    (match r.id with | some v => [("id", v)] | none => []) ++
    (match r.result with | some v => [("result", v)] | none => []) ++
    (match r.error with | some e => [("error", dumpError e)] | none => []))

/-- The event generator of `_create_response` (server.py lines 216-220): one
`data:` frame per item the async iterable produces, each holding
`item.model_dump_json(exclude_none=True)`, in production order, with nothing
appended after the iterable is exhausted. -/
def event_generator (items : List JSONRPCResponse) : List SSEFrame :=
  items.map (fun item => { data := renderJson (dumpResponse item) })

/-- `A2AServer._create_response` (server.py lines 213-227): an `AsyncIterable`
result becomes an `EventSourceResponse` over `event_generator`; a
`JSONRPCResponse` result becomes a `JSONResponse` of its dump (status 200); any
other value raises `ValueError`. -/
def create_response : HandlerResult → Except PyExn ServerResponse
  | .stream items => .ok (.sse (event_generator items))
  | .response r => .ok (.json r 200)
  | .other d => .error (.valueError ("Unexpected result type: " ++ d))

/-- `A2AServer._handle_exception` (server.py lines 201-211):
`json.decoder.JSONDecodeError` maps to `JSONParseError`, a pydantic
`ValidationError` to `InvalidRequestError` (with the validation detail as
`data`), anything else to `InternalError`; the response is always built with
`id=None` and served with status 400. -/
def handle_exception (e : PyExn) : JSONRPCResponse :=
  match e with
  | .jsonDecodeError => { id := none, error := some .jsonParseError }
  | .validationError d => { id := none, error := some (.invalidRequestError (some d)) }
  | _ => { id := none, error := some .internalError }

/-- The logging statement at server.py line 92,
`list(body.get('params', {}).keys())`: it raises `AttributeError` when a
`params` value is present but is not a dict, before any dispatch happens. -/
def params_keys_check (fields : List (String × Json)) : Except PyExn Unit :=
  match dictGetD fields "params" (.obj []) with
  | .obj _ => .ok ()
  | _ => .error (.attributeError "object has no keys")

/-- Whether `body.get('method') == 'message/send'` (server.py line 97). -/
def isMessageSend (fields : List (String × Json)) : Bool :=
  match dictGet fields "method" with
  | some (.str s) => s == "message/send"
  | _ => false

/-- The body of the outer `try` of `A2AServer._process_request` (server.py
lines 88-196); a returned `.error` is an exception propagating to the outer
`except`.

* the incoming `rawBody` models `await request.json()` (line 89);
* lines 90-92 call `body.get` and `body.keys`, so a non-dict body raises
  `AttributeError`, and line 92 additionally requires a present `params` to be
  a dict (`params_keys_check`);
* `message/send` branch (lines 97-144): manual extraction; on success the
  request is dispatched to `on_a2a_message_send` (line 161 finds the local
  `A2AMessageSendRequest` bound by the line-101 import, so the `isinstance`
  succeeds) and the result goes through `_create_response` (line 196); on
  extraction failure the handler at lines 137-144 returns an
  `InvalidRequestError` response echoing `body.get('id')`, status 400;
* any other method (lines 145-157): `A2ARequest.validate_python`; on success,
  line 161 reads the never-assigned local `A2AMessageSendRequest` and raises
  `UnboundLocalError`; on failure, the handler at lines 151-157 reads the
  never-assigned local `JSONRPCResponse` and raises `UnboundLocalError`.
  Either way the dispatch chain at lines 170-191 is unreachable. -/
def process_request_body (tm : TaskManager) (rawBody : Except PyExn Json) :
    Except PyExn ServerResponse := do
  let body ← rawBody
  let fields ← asDict body
  let _ ← params_keys_check fields
  if isMessageSend fields then
    match extract_message_send fields with
    | .ok req => do
      let result ← tm.on_a2a_message_send req
      create_response result
    | .error e =>
      .ok (.json { id := dictGet fields "id",
                   error := some (.invalidRequestError (some (pyExnStr e))) } 400)
  else
    match validate_python body with
    | .ok _ => .error (.unboundLocalError "A2AMessageSendRequest")
    | .error _ => .error (.unboundLocalError "JSONRPCResponse")

/-- `A2AServer._process_request` (server.py lines 85-199): the outer `except`
catches every exception and answers with `_handle_exception`. -/
def process_request (tm : TaskManager) (rawBody : Except PyExn Json) : ServerResponse :=
  match process_request_body tm rawBody with
  | .ok resp => resp
  | .error e => .json (handle_exception e) 400

/-- Modelled from the spec: the capability flags of the `AgentCard` model of
`shared/custom_types.py` (file not under the sources); shape per spec
section 6. -/
structure AgentCapabilities where
  streaming : Bool
  pushNotifications : Bool
  stateTransitionHistory : Bool
deriving Repr, DecidableEq

/-- Modelled from the spec: a declared skill of the `AgentCard` (spec
section 6). -/
structure AgentSkill where
  id : String
  name : String
  description : String
  tags : List String
  examples : List String
deriving Repr, DecidableEq

/-- Modelled from the spec: the `AgentCard` discovery document (spec
sections 3 and 6); every field of this shape is populated at startup. -/
structure AgentCard where
  name : String
  description : String
  url : String
  version : String
  capabilities : AgentCapabilities
  skills : List AgentSkill
  defaultInputModes : List String
  defaultOutputModes : List String
deriving Repr, DecidableEq

/-- Serialization of one skill. -/
def dumpSkill (s : AgentSkill) : Json :=
  .obj [("id", .str s.id), ("name", .str s.name), ("description", .str s.description),
        ("tags", .arr (s.tags.map Json.str)), ("examples", .arr (s.examples.map Json.str))]

/-- `agent_card.model_dump(exclude_none=True)`: every field of the modelled
card shape is populated, so nothing is excluded. -/
def dumpAgentCard (c : AgentCard) : Json :=
  .obj [("name", .str c.name), ("description", .str c.description),
        ("url", .str c.url), ("version", .str c.version),
        ("capabilities", .obj [("streaming", .bool c.capabilities.streaming),
          ("pushNotifications", .bool c.capabilities.pushNotifications),
          ("stateTransitionHistory", .bool c.capabilities.stateTransitionHistory)]),
        ("skills", .arr (c.skills.map dumpSkill)),
        ("defaultInputModes", .arr (c.defaultInputModes.map Json.str)),
        ("defaultOutputModes", .arr (c.defaultOutputModes.map Json.str))]

/-- `A2AServer._get_agent_card` (server.py lines 81-83): returns the card's
dump as a `JSONResponse`. -/
def get_agent_card (card : AgentCard) : Json :=
  dumpAgentCard card

/-- Which bound method a registered route points at. -/
inductive RouteHandlerTag where
  | processRequestRoute
  | agentCardRoute
deriving Repr, DecidableEq

/-- One `add_api_route` registration. -/
structure Route where
  path : String
  httpMethods : List String
  handler : RouteHandlerTag
deriving Repr, DecidableEq

/-- The three registrations made by `A2AServer.__init__` (server.py
lines 54-70): the JSON-RPC endpoint for POST, and the two well-known discovery
paths for GET, both bound to `self._get_agent_card`. -/
def server_routes (endpoint : String) : List Route :=
  [ { path := endpoint, httpMethods := ["POST"], handler := .processRequestRoute },
    { path := "/.well-known/agent.json", httpMethods := ["GET"],
      handler := .agentCardRoute },
    { path := "/.well-known/agent-card.json", httpMethods := ["GET"],
      handler := .agentCardRoute } ]

/-- Whether a route serves the given path and HTTP verb. -/
def routeMatches (r : Route) (path verb : String) : Bool :=
  r.httpMethods.contains verb && r.path == path

/-- Route resolution: the handler of the first registered route matching path
and verb. -/
def routeLookup (routes : List Route) (path verb : String) : Option RouteHandlerTag :=
  (routes.find? (fun r => routeMatches r path verb)).map (·.handler)

/-- The mutable state the `A2AServer` instance carries across requests that the
claims observe: the configured `agent_card` and the endpoint path. -/
structure A2AServerState where
  agent_card : AgentCard
  endpoint : String

/-- What the server sends back for one HTTP exchange. -/
inductive HttpReply where
  | rpc (r : ServerResponse)
  | card (j : Json)

/-- One HTTP exchange against the server: resolve the route, run the bound
handler, and return the (possibly updated) server state with the reply.
Neither handler assigns `self.agent_card` (server.py lines 81-227), so the
state comes back unchanged on every path; an unmatched route is answered by the
framework with no handler involved (`none`). -/
def handle_http (st : A2AServerState) (tm : TaskManager) (path verb : String)
    (rawBody : Except PyExn Json) : A2AServerState × Option HttpReply :=
  match routeLookup (server_routes st.endpoint) path verb with
  | some .processRequestRoute => (st, some (.rpc (process_request tm rawBody)))
  | some .agentCardRoute => (st, some (.card (get_agent_card st.agent_card)))
  | none => (st, none)

end A2AProto


namespace A2AProto

/-! ### Concrete task managers and request bodies used by the theorems -/

/-- A task manager every one of whose handlers raises `e`: the worst
collaborator the dispatcher can face. -/
def raisingTM (e : PyExn) : TaskManager :=
  { on_get_task := fun _ => .error e
    on_send_task := fun _ => .error e
    on_send_task_subscribe := fun _ => .error e
    on_cancel_task := fun _ => .error e
    on_set_task_push_notification := fun _ => .error e
    on_get_task_push_notification := fun _ => .error e
    on_resubscribe_to_task := fun _ => .error e
    on_a2a_message_send := fun _ => .error e }

/-- A distinctive successful response, recognizably produced by a handler. -/
def markerResponse : JSONRPCResponse :=
  { id := some (.str "marker"), result := some (.str "handler ran") }

/-- A task manager whose `on_a2a_message_send` answers `markerResponse`;
observing `markerResponse` in the dispatcher output proves the request reached
the task manager. -/
def markerTM : TaskManager :=
  { raisingTM (.valueError "unused") with
    on_a2a_message_send := fun _ => .ok (.response markerResponse) }

/-- A well-formed `tasks/get` request body. -/
def getTaskFields : List (String × Json) :=
  [("jsonrpc", .str "2.0"), ("id", .str "t1"), ("method", .str "tasks/get"),
   ("params", .obj [("id", .str "task1")])]

/-- A valid-JSON body with an unknown method, id `"t2"` (exercised for C2). -/
def c2Fields : List (String × Json) :=
  [("jsonrpc", .str "2.0"), ("id", .str "t2"), ("method", .str "bogus/method"),
   ("params", .obj [])]

/-- A valid-JSON body with an unknown method, id `"t4"` (the spec's
`bogus/method` probe, exercised for C4). -/
def c4Fields : List (String × Json) :=
  [("jsonrpc", .str "2.0"), ("id", .str "t4"), ("method", .str "bogus/method"),
   ("params", .obj [])]

/-- The `message` dict of a `message/send` request carrying every field the
claim lists, including `taskId` and `contextId`. -/
def c5MessageFields : List (String × Json) :=
  [("role", .str "user"),
   ("parts", .arr [.obj [("kind", .str "text"), ("text", .str "hello")]]),
   ("messageId", .str "m5"), ("taskId", .str "task-5"), ("contextId", .str "ctx-5")]

/-- A full `message/send` body around `c5MessageFields`. -/
def c5Fields : List (String × Json) :=
  [("jsonrpc", .str "2.0"), ("id", .str "r5"), ("method", .str "message/send"),
   ("params", .obj [("message", .obj c5MessageFields)])]

/-- The typed request the manual extraction produces from `c5Fields`. -/
def c5Req : A2AMessageSendRequest :=
  { id := .str "r5",
    params := { message :=
      { role := "user",
        parts := [{ kind := "text", text := "hello", mimeType := "text/plain" }],
        messageId := "m5", kind := "message" } } }

/-- A part of kind `image`: not a text part. -/
def c6ImagePartFields : List (String × Json) :=
  [("kind", .str "image"), ("data", .str "base64stuff")]

/-- A parts list holding one image part followed by one text part. -/
def c6Parts : List Json :=
  [.obj c6ImagePartFields, .obj [("kind", .str "text"), ("text", .str "hi")]]

/-- The spec's `message/send` probe with empty `params` (no `message`). -/
def emptyParamsFields : List (String × Json) :=
  [("jsonrpc", .str "2.0"), ("id", .str "test"), ("method", .str "message/send"),
   ("params", .obj [])]

/-- A well-formed `tasks/send` body with id `"t8"`. -/
def c8Fields : List (String × Json) :=
  [("jsonrpc", .str "2.0"), ("id", .str "t8"), ("method", .str "tasks/send"),
   ("params", .obj [("id", .str "task8"), ("sessionId", .str "s8"),
     ("message", .obj [])])]

/-- A `message/send` body whose `params.message` is not a dict, so the manual
extraction raises (`AttributeError` at `.get`). -/
def badMessageFields : List (String × Json) :=
  [("jsonrpc", .str "2.0"), ("id", .str "tbad"), ("method", .str "message/send"),
   ("params", .obj [("message", .num 5)])]

/-- Whether a raw part value would be kept by the extraction loop: a dict whose
`kind` value is the string `"text"`. -/
def partKindIsText (p : Json) : Bool :=
  match p with
  | .obj fs => isTextKind (dictGet fs "kind")
  | _ => false

/-- What the extraction loop at server.py lines 106-112 makes of a single raw
part: a text-kind dict with string (or absent) `text` and `mimeType` values
becomes the corresponding `A2ATextPart`; a non-text part is `none` (skipped);
a text-kind part with a non-string `text` or `mimeType` is `none` here but
makes the whole loop raise, so the two never disagree on a successful run. -/
def extractedPart (p : Json) : Option A2ATextPart :=
  match p with
  | .obj fs =>
    if isTextKind (dictGet fs "kind") then
      match dictGetD fs "text" (.str ""), dictGetD fs "mimeType" (.str "text/plain") with
      | .str t, .str m => some { kind := "text", text := t, mimeType := m }
      | _, _ => none
    else none
  | _ => none

/-- A raw parts list with two text parts around an image part, to observe
order and content preservation of the extraction. -/
def c5wRawParts : List Json :=
  [.obj [("kind", .str "text"), ("text", .str "one")],
   .obj [("kind", .str "image"), ("data", .str "blob")],
   .obj [("kind", .str "text"), ("text", .str "two"), ("mimeType", .str "text/markdown")]]

/-- A `message` dict around `c5wRawParts`. -/
def c5wMessageFields : List (String × Json) :=
  [("role", .str "agent"), ("parts", .arr c5wRawParts),
   ("messageId", .str "m5w"), ("taskId", .str "task-5w")]

/-- A full `message/send` body around `c5wMessageFields`. -/
def c5wFields : List (String × Json) :=
  [("jsonrpc", .str "2.0"), ("id", .str "r5w"), ("method", .str "message/send"),
   ("params", .obj [("message", .obj c5wMessageFields)])]

/-- The typed request the manual extraction produces from `c5wFields`: both
text parts, in order, with their texts and mime types; the image part gone. -/
def c5wReq : A2AMessageSendRequest :=
  { id := .str "r5w",
    params := { message :=
      { role := "agent",
        parts := [{ kind := "text", text := "one", mimeType := "text/plain" },
                  { kind := "text", text := "two", mimeType := "text/markdown" }],
        messageId := "m5w", kind := "message" } } }

/-- A well-formed `message/send` body (one text part) whose extraction
succeeds, used to exercise the successful-dispatch path. -/
def c8OkFields : List (String × Json) :=
  [("jsonrpc", .str "2.0"), ("id", .str "t8ok"), ("method", .str "message/send"),
   ("params", .obj [("message", .obj [
      ("role", .str "user"),
      ("parts", .arr [.obj [("kind", .str "text"), ("text", .str "ping")]]),
      ("messageId", .str "m8")])])]

/-- The typed request the manual extraction produces from `c8OkFields`. -/
def c8OkReq : A2AMessageSendRequest :=
  { id := .str "t8ok",
    params := { message :=
      { role := "user",
        parts := [{ kind := "text", text := "ping", mimeType := "text/plain" }],
        messageId := "m8", kind := "message" } } }

end A2AProto

namespace A2AProto

/-! ### Helper lemmas shared by several claim theorems -/

/-- Unfolding lemma: binding a successful `Except` computation. -/
theorem exceptBind_ok {α β : Type} (a : α) (f : α → Except PyExn β) :
    (Except.ok a >>= f) = f a := rfl

/-- Unfolding lemma: binding a raised `Except` computation propagates the
exception. -/
theorem exceptBind_error {α β : Type} (e : PyExn) (f : α → Except PyExn β) :
    ((Except.error e : Except PyExn α) >>= f) = Except.error e := rfl

/-- Every part the extraction loop keeps has kind `"text"`, and it keeps
exactly as many parts as there are raw parts whose `kind` value is the string
`"text"`. -/
theorem extract_parts_filter (ps : List Json) (out : List A2ATextPart)
    (h : extract_parts ps = .ok out) :
    (∀ p ∈ out, p.kind = "text") ∧
    out.length = (ps.filter partKindIsText).length := by
  induction ps generalizing out with
  | nil =>
    simp only [extract_parts] at h
    cases h
    simp
  | cons p rest ih =>
    match p with
    | .null | .bool _ | .num _ | .str _ | .arr _ =>
      simp [extract_parts, asDict, exceptBind_error] at h
    | .obj fs =>
      simp only [extract_parts, asDict, exceptBind_ok] at h
      by_cases hk : isTextKind (dictGet fs "kind")
      · rw [if_pos hk] at h
        match ht : asStr (dictGetD fs "text" (.str "")) with
        | .error e => rw [ht, exceptBind_error] at h; exact absurd h (by simp)
        | .ok text =>
          rw [ht, exceptBind_ok] at h
          match hm : asStr (dictGetD fs "mimeType" (.str "text/plain")) with
          | .error e => rw [hm, exceptBind_error] at h; exact absurd h (by simp)
          | .ok mime =>
            rw [hm, exceptBind_ok] at h
            match hr : extract_parts rest with
            | .error e => rw [hr, exceptBind_error] at h; exact absurd h (by simp)
            | .ok tail =>
              rw [hr, exceptBind_ok] at h
              cases h
              have := ih tail hr
              constructor
              · intro q hq
                rcases List.mem_cons.mp hq with hq | hq
                · rw [hq]
                · exact this.1 q hq
              · simp [List.filter, partKindIsText, hk, this.2]
      · rw [if_neg hk] at h
        have := ih out h
        refine ⟨this.1, ?_⟩
        simp [List.filter, partKindIsText, hk, this.2]

/-- Inversion for the modelled pydantic string check: success means the value
was that string. -/
theorem asStr_ok {j : Json} {s : String} (h : asStr j = .ok s) : j = .str s := by
  cases j <;> simp_all [asStr]

/-- Full characterization of the extraction loop on a successful run: the kept
parts are exactly the images of the raw parts under `extractedPart`, in order —
so content (each kept part's `text` and `mimeType`, defaults included) and
relative order are preserved, non-text parts are skipped, and nothing else is
produced. -/
theorem extract_parts_eq_filterMap (ps : List Json) (out : List A2ATextPart)
    (h : extract_parts ps = .ok out) :
    out = ps.filterMap extractedPart := by
  induction ps generalizing out with
  | nil =>
    simp only [extract_parts] at h
    cases h
    rfl
  | cons p rest ih =>
    match p with
    | .null | .bool _ | .num _ | .str _ | .arr _ =>
      simp [extract_parts, asDict, exceptBind_error] at h
    | .obj fs =>
      simp only [extract_parts, asDict, exceptBind_ok] at h
      by_cases hk : isTextKind (dictGet fs "kind")
      · rw [if_pos hk] at h
        match ht : asStr (dictGetD fs "text" (.str "")) with
        | .error e => rw [ht, exceptBind_error] at h; exact absurd h (by simp)
        | .ok text =>
          rw [ht, exceptBind_ok] at h
          match hm : asStr (dictGetD fs "mimeType" (.str "text/plain")) with
          | .error e => rw [hm, exceptBind_error] at h; exact absurd h (by simp)
          | .ok mime =>
            rw [hm, exceptBind_ok] at h
            match hr : extract_parts rest with
            | .error e => rw [hr, exceptBind_error] at h; exact absurd h (by simp)
            | .ok tail =>
              rw [hr, exceptBind_ok] at h
              cases h
              rw [ih tail hr]
              simp [List.filterMap_cons, extractedPart, hk, asStr_ok ht, asStr_ok hm]
      · rw [if_neg hk] at h
        rw [ih out h]
        simp [List.filterMap_cons, extractedPart, hk]

end A2AProto

namespace A2AProto

/-! ### Claim theorems -/

/-- C1: refuted as stated; the code slip makes it a code bug.  Whenever
`A2ARequest.validate_python` accepts a legacy typed request (any of the seven
`tasks/...` methods), the dispatcher does not route it to the corresponding
task-manager handler: for every task manager, the response is the
Internal-Error body with null id, because the `isinstance` test at server.py
line 161 reads the never-assigned function-local `A2AMessageSendRequest` and
raises `UnboundLocalError` before any handler is reached. -/
theorem c1_legacy_requests_internal_error (tm : TaskManager)
    (fields : List (String × Json)) (req : LegacyRequest)
    (hpk : params_keys_check fields = .ok ())
    (hns : isMessageSend fields = false)
    (hv : validate_python (.obj fields) = .ok req) :
    process_request tm (.ok (.obj fields)) =
      .json { id := none, error := some .internalError } 400 := by
  simp only [process_request, process_request_body, exceptBind_ok, asDict, hpk, hns, hv,
    Bool.false_eq_true, if_false, handle_exception]

/-- Witness for C1 at the concrete `tasks/get` request `getTaskFields`, with a
task manager whose `on_get_task` would answer successfully if it were ever
called. -/
theorem c1_legacy_requests_internal_error_witness :
    process_request markerTM (.ok (.obj getTaskFields)) =
      .json { id := none, error := some .internalError } 400 :=
  c1_legacy_requests_internal_error markerTM getTaskFields
    { method := .tasksGet, id := some (.str "t1"), params := [("id", .str "task1")] }
    rfl rfl rfl

/-- Every `handle_exception` response carries an error object. -/
theorem handle_exception_error_isSome (e : PyExn) :
    (handle_exception e).error.isSome = true := by
  cases e <;> rfl

/-- Against a task manager all of whose handlers raise, the dispatcher still
answers every conceivable body with a status-400 JSON-RPC body carrying an
error object: no path escapes without a response. -/
theorem raisingTM_error_body (e : PyExn) (rawBody : Except PyExn Json) :
    ∃ r : JSONRPCResponse, process_request (raisingTM e) rawBody = .json r 400 ∧
      r.error.isSome = true := by
  match rawBody with
  | .error e0 => exact ⟨handle_exception e0, rfl, handle_exception_error_isSome e0⟩
  | .ok .null => exact ⟨_, rfl, rfl⟩
  | .ok (.bool b) => exact ⟨_, rfl, rfl⟩
  | .ok (.num n) => exact ⟨_, rfl, rfl⟩
  | .ok (.str s) => exact ⟨_, rfl, rfl⟩
  | .ok (.arr es) => exact ⟨_, rfl, rfl⟩
  | .ok (.obj fields) =>
    cases hpk : params_keys_check fields with
    | error e2 =>
      refine ⟨handle_exception e2, ?_, handle_exception_error_isSome e2⟩
      simp [process_request, process_request_body, exceptBind_ok, asDict, hpk,
        exceptBind_error]
    | ok u =>
      cases u
      cases hms : isMessageSend fields with
      | false =>
        cases hv : validate_python (.obj fields) with
        | ok req =>
          refine ⟨handle_exception (.unboundLocalError "A2AMessageSendRequest"), ?_, rfl⟩
          simp [process_request, process_request_body, exceptBind_ok, asDict, hpk, hms, hv]
        | error e2 =>
          refine ⟨handle_exception (.unboundLocalError "JSONRPCResponse"), ?_, rfl⟩
          simp [process_request, process_request_body, exceptBind_ok, asDict, hpk, hms, hv]
      | true =>
        cases hx : extract_message_send fields with
        | ok req =>
          refine ⟨handle_exception e, ?_, handle_exception_error_isSome e⟩
          simp [process_request, process_request_body, exceptBind_ok, asDict, hpk, hms, hx,
            raisingTM, exceptBind_error]
        | error e2 =>
          refine ⟨{ id := dictGet fields "id",
                    error := some (.invalidRequestError (some (pyExnStr e2))) }, ?_, rfl⟩
          simp [process_request, process_request_body, exceptBind_ok, asDict, hpk, hms, hx]

/-- C2: refuted as stated; the code slip makes it a code bug.  The
`never an unhandled failure` half holds: even against a task manager all of
whose handlers raise, every body is answered with a status-400 JSON-RPC error
body (third conjunct).  But the promised mapping fails for validation errors:
`A2ARequest.validate_python` rejecting `bogus/method` raises a
`ValidationError` (first conjunct), and the response is Internal-Error, not
Invalid-Request (second conjunct), because the inner handler at server.py
lines 151-157 reads the never-assigned function-local `JSONRPCResponse` and
raises `UnboundLocalError`. -/
theorem c2_exception_always_answered_but_misclassified (tm : TaskManager) :
    (∃ d, validate_python (.obj c2Fields) = .error (.validationError d)) ∧
    process_request tm (.ok (.obj c2Fields)) =
      .json { id := none, error := some .internalError } 400 ∧
    ∀ (e : PyExn) (rawBody : Except PyExn Json),
      ∃ r : JSONRPCResponse, process_request (raisingTM e) rawBody = .json r 400 ∧
        r.error.isSome = true :=
  ⟨⟨"method: no union variant matches bogus/method", rfl⟩, rfl, raisingTM_error_body⟩

/-- C3: confirmed.  A body that is not valid JSON (the decoder raises
`JSONDecodeError`) is answered, for every task manager, with the fixed
Parse-Error code and a null id. -/
theorem c3_invalid_json_parse_error_null_id (tm : TaskManager) :
    process_request tm (.error .jsonDecodeError) =
      .json { id := none, error := some .jsonParseError } 400 ∧
    JSONRPCError.code .jsonParseError = -32700 := ⟨rfl, rfl⟩

/-- C4: refuted as stated; the code contradicts its own compliance test
(`test_a2a_protocol_compliance.py` expects `METHOD_NOT_FOUND` here).  The
spec probe `jsonrpc 2.0, id t4, method bogus/method, params` empty is answered
with Internal-Error, not Method-Not-Found: `validate_python` raises, and the
handler for that failure itself raises `UnboundLocalError` (server.py
lines 151-157), so `_handle_exception` answers Internal-Error with null id. -/
theorem c4_unknown_method_internal_not_method_not_found (tm : TaskManager) :
    process_request tm (.ok (.obj c4Fields)) =
      .json { id := none, error := some .internalError } 400 ∧
    JSONRPCError.internalError ≠ .methodNotFoundError :=
  ⟨rfl, by decide⟩

/-- C7: refuted as stated; the code contradicts its own compliance test
(`test_a2a_protocol_compliance.py` expects `INVALID_PARAMS` here).  For
`message/send` with empty `params`, every `get` in the manual extraction falls
back to its default, so the dispatcher builds a message with no parts and
proceeds to the task manager: the response is the handler marker (status 200,
no error), not Invalid-Params or Invalid-Request. -/
theorem c7_empty_params_proceeds_to_task_manager :
    process_request markerTM (.ok (.obj emptyParamsFields)) = .json markerResponse 200 ∧
    (extract_message_send emptyParamsFields).map (fun r => r.params.message.parts) =
      .ok [] ∧
    markerResponse.error = none := ⟨rfl, rfl, rfl⟩

/-- C5: refuted as stated.  At a concrete `message/send` body whose message
carries `taskId` `task-5` and `contextId` `ctx-5`, the manual extraction
succeeds but the typed message has `taskId = none` and `contextId = none`:
server.py lines 114-120 never read those keys, so they are not preserved. -/
theorem c5_counterexample_ids_dropped :
    dictGet c5MessageFields "taskId" = some (.str "task-5") ∧
    dictGet c5MessageFields "contextId" = some (.str "ctx-5") ∧
    extract_message_send c5Fields = .ok c5Req ∧
    c5Req.params.message.taskId = none ∧
    c5Req.params.message.contextId = none ∧
    (none : Option String) ≠ some "task-5" :=
  ⟨rfl, rfl, rfl, rfl, rfl, by simp⟩

/-- C5 amended: whenever the manual extraction succeeds, the typed request
preserves `role` and `messageId` from `params.message` (with the defaults
`user` / `auto`), echoes the body id (default `auto`), fixes
`kind = "message"`, and its parts are exactly the text-kind raw parts in their
original order with their `text` and `mimeType` content (defaults `""` /
`text/plain`) — non-text parts dropped — while `taskId` and `contextId` are
always left unset. -/
theorem c5_amended_extraction (fields pFields mFields : List (String × Json))
    (rs ms : String) (rawParts : List Json) (req : A2AMessageSendRequest)
    (hp : dictGetD fields "params" (.obj []) = .obj pFields)
    (hm : dictGetD pFields "message" (.obj []) = .obj mFields)
    (hparts : dictGetD mFields "parts" (.arr []) = .arr rawParts)
    (hrole : dictGetD mFields "role" (.str "user") = .str rs)
    (hmid : dictGetD mFields "messageId" (.str "auto") = .str ms)
    (hok : extract_message_send fields = .ok req) :
    req.params.message.role = rs ∧
    req.params.message.messageId = ms ∧
    req.params.message.taskId = none ∧
    req.params.message.contextId = none ∧
    req.params.message.kind = "message" ∧
    req.id = dictGetD fields "id" (.str "auto") ∧
    req.params.message.parts = rawParts.filterMap extractedPart ∧
    ∀ p ∈ req.params.message.parts, p.kind = "text" := by
  simp only [extract_message_send, hp, hm, hparts, hrole, hmid, asDict, asArr, asStr,
    exceptBind_ok] at hok
  cases hep : extract_parts rawParts with
  | error e => rw [hep, exceptBind_error] at hok; exact absurd hok (by simp)
  | ok parts =>
    rw [hep, exceptBind_ok] at hok
    injection hok with h
    subst h
    refine ⟨rfl, rfl, rfl, rfl, rfl, rfl, ?_, ?_⟩
    · exact extract_parts_eq_filterMap rawParts parts hep
    · exact (extract_parts_filter rawParts parts hep).1

/-- Witness for the amended C5 at the concrete body `c5wFields`, whose three
raw parts (text `one`, an image part, text `two` with mime `text/markdown`)
show order and content preservation together with the silent drop. -/
theorem c5_amended_extraction_witness :
    c5wReq.params.message.role = "agent" ∧
    c5wReq.params.message.messageId = "m5w" ∧
    c5wReq.params.message.taskId = none ∧
    c5wReq.params.message.contextId = none ∧
    c5wReq.params.message.kind = "message" ∧
    c5wReq.id = dictGetD c5wFields "id" (.str "auto") ∧
    c5wReq.params.message.parts = c5wRawParts.filterMap extractedPart ∧
    ∀ p ∈ c5wReq.params.message.parts, p.kind = "text" :=
  c5_amended_extraction c5wFields [("message", .obj c5wMessageFields)] c5wMessageFields
    "agent" "m5w" c5wRawParts c5wReq rfl rfl rfl rfl rfl rfl

/-- C6: refuted as stated.  A `message/send` parts list holding an `image`
part and a `text` part is extracted without any error — the result keeps only
the text part, silently dropping the image part (server.py lines 106-112
filter on `kind == 'text'`), instead of rejecting the request. -/
theorem c6_counterexample_nontext_part_silently_dropped :
    extract_parts c6Parts =
      .ok [{ kind := "text", text := "hi", mimeType := "text/plain" }] ∧
    c6Parts.length = 2 ∧
    partKindIsText (.obj c6ImagePartFields) = false ∧
    dictGet c6ImagePartFields "kind" = some (.str "image") :=
  ⟨rfl, rfl, rfl, rfl⟩

/-- C6 amended: the extraction loop never rejects a non-text part; whenever it
succeeds it keeps every part of kind `text` and nothing else (the typed
rejection of non-text parts exists only on the legacy `tasks/send` path of the
task manager, not in the dispatcher). -/
theorem c6_amended_only_text_parts_kept (ps : List Json) (out : List A2ATextPart)
    (h : extract_parts ps = .ok out) :
    (∀ p ∈ out, p.kind = "text") ∧
    out.length = (ps.filter partKindIsText).length :=
  extract_parts_filter ps out h

/-- Witness for the amended C6 at the concrete parts list `c6Parts`. -/
theorem c6_amended_only_text_parts_kept_witness :
    (∀ p ∈ [({ kind := "text", text := "hi", mimeType := "text/plain" } : A2ATextPart)],
      p.kind = "text") ∧
    ([({ kind := "text", text := "hi", mimeType := "text/plain" } : A2ATextPart)]).length =
      (c6Parts.filter partKindIsText).length :=
  c6_amended_only_text_parts_kept c6Parts
    [{ kind := "text", text := "hi", mimeType := "text/plain" }] rfl

/-- C8: refuted as stated.  A well-formed `tasks/send` body with id `t8`
parses as JSON, yet its response carries id null (every exception funnelled to
`_handle_exception` — here the `UnboundLocalError` of the legacy dispatch —
is answered with `id=None`, server.py line 210), so a null response id is not
restricted to JSON parse failures. -/
theorem c8_counterexample_id_not_echoed :
    dictGet c8Fields "id" = some (.str "t8") ∧
    process_request (raisingTM (.valueError "unused")) (.ok (.obj c8Fields)) =
      .json { id := none, error := some .internalError } 400 ∧
    (none : Option Json) ≠ some (.str "t8") :=
  ⟨rfl, rfl, fun h => Option.noConfusion h⟩

/-- C8 amended: every response built by `_handle_exception` carries id null,
whatever the request id was (first conjunct); the `message/send`
manual-extraction failure (server.py lines 137-144) echoes the request id
(second conjunct); and a successful dispatch returns the task-manager
handler's response object verbatim with status 200, so a successful response
carries exactly the id the handler chose (third conjunct). -/
theorem c8_amended_null_id_on_handled_exceptions (e : PyExn) :
    (handle_exception e).id = none ∧
    (∀ (tm : TaskManager) (fields : List (String × Json)) (e2 : PyExn),
      params_keys_check fields = .ok () →
      isMessageSend fields = true →
      extract_message_send fields = .error e2 →
      process_request tm (.ok (.obj fields)) =
        .json { id := dictGet fields "id",
                error := some (.invalidRequestError (some (pyExnStr e2))) } 400) ∧
    (∀ (tm : TaskManager) (fields : List (String × Json))
       (req : A2AMessageSendRequest) (r : JSONRPCResponse),
      params_keys_check fields = .ok () →
      isMessageSend fields = true →
      extract_message_send fields = .ok req →
      tm.on_a2a_message_send req = .ok (.response r) →
      process_request tm (.ok (.obj fields)) = .json r 200) := by
  refine ⟨?_, ?_, ?_⟩
  · cases e <;> rfl
  · intro tm fields e2 hpk hms hx
    simp [process_request, process_request_body, exceptBind_ok, asDict, hpk, hms, hx]
  · intro tm fields req r hpk hms hx hr
    simp [process_request, process_request_body, exceptBind_ok, asDict, hpk, hms, hx, hr,
      create_response]

/-- Witness for the amended C8: the extraction-failure clause at the concrete
body `badMessageFields`, and the successful-dispatch clause at `c8OkFields`
against the marker task manager, whose chosen response (id included) comes
back verbatim. -/
theorem c8_amended_null_id_on_handled_exceptions_witness :
    (handle_exception (.valueError "boom")).id = none ∧
    process_request (raisingTM (.valueError "unused")) (.ok (.obj badMessageFields)) =
      .json { id := dictGet badMessageFields "id",
              error := some (.invalidRequestError
                (some (pyExnStr (.attributeError "object has no get or keys")))) } 400 ∧
    process_request markerTM (.ok (.obj c8OkFields)) = .json markerResponse 200 := by
  obtain ⟨h1, h2, h3⟩ := c8_amended_null_id_on_handled_exceptions (.valueError "boom")
  exact ⟨h1,
    h2 (raisingTM (.valueError "unused")) badMessageFields
      (.attributeError "object has no get or keys") rfl rfl rfl,
    h3 markerTM c8OkFields c8OkReq markerResponse rfl rfl rfl rfl⟩

/-- C9: confirmed.  An async-iterable handler result producing items
`x1..xn` becomes a server-sent-event stream of exactly `n` frames, frame `i`
holding the JSON encoding (None fields excluded) of item `i`, in production
order, with no end-marker frame appended (the frame list is exactly
`event_generator items`). -/
theorem c9_sse_stream_one_frame_per_item (items : List JSONRPCResponse) :
    ∃ frames : List SSEFrame,
      create_response (.stream items) = .ok (.sse frames) ∧
      frames = event_generator items ∧
      frames.length = items.length ∧
      ∀ i : Nat, frames.get? i =
        (items.get? i).map (fun item => { data := renderJson (dumpResponse item) }) := by
  refine ⟨event_generator items, rfl, rfl, ?_, ?_⟩
  · simp [event_generator]
  · intro i
    simp [event_generator, List.get?_map]

/-- C10: confirmed.  Route resolution sends GET on both well-known paths to
the same `_get_agent_card` handler; both replies are the identical serialized
agent card (None fields excluded); and no request handling — any path, verb
and body, including JSON-RPC POSTs — changes the stored `agent_card`. -/
theorem c10_agent_card_identical_and_immutable (st : A2AServerState) (tm : TaskManager)
    (path verb : String) (rawBody : Except PyExn Json) :
    routeLookup (server_routes st.endpoint) "/.well-known/agent.json" "GET" =
      some .agentCardRoute ∧
    routeLookup (server_routes st.endpoint) "/.well-known/agent-card.json" "GET" =
      some .agentCardRoute ∧
    (handle_http st tm "/.well-known/agent.json" "GET" rawBody).2 =
      some (.card (dumpAgentCard st.agent_card)) ∧
    (handle_http st tm "/.well-known/agent-card.json" "GET" rawBody).2 =
      some (.card (dumpAgentCard st.agent_card)) ∧
    (handle_http st tm path verb rawBody).1.agent_card = st.agent_card := by
  refine ⟨rfl, rfl, rfl, rfl, ?_⟩
  unfold handle_http
  cases h : routeLookup (server_routes st.endpoint) path verb with
  | none => rfl
  | some tag => cases tag <;> rfl

end A2AProto
